import Mathlib

/-!
Verification of the fare-meter core of `ricky_raspberry_code`.

The fare engine (`src/backend/fare_calculator.py`), the GPS distance
function (`src/backend/gps_manager.py`), the rotary-mode resolver and SOS
monitor (`src/backend/gpio_manager.py`) and the SOS state machine
(`src/backend/sos_system.py`) are embedded shallowly: currency, distances,
speeds and time deltas become rationals, Python `None` becomes `Option`,
and each Python method becomes a pure state-transition function returning
the new state together with the events it emits.  The haversine formula is
embedded over the reals.  The fare engine is parameterised by the distance
function `d` it is handed, exactly as `FareCalculator` delegates distance
to its `gps_manager`.
-/

namespace RickyMeter

/-- A latitude/longitude pair, as the `(lat, lon)` tuples passed around by
`fare_calculator.py`. -/
structure Location where
  lat : ℚ
  lon : ℚ
deriving DecidableEq, Repr

/-- Python `round(x, n)` as used on fares, distances and durations:
round to `n` decimal places (modelled as round-half-up on rationals). -/
def roundTo (n : ℕ) (x : ℚ) : ℚ :=
  (Int.floor (x * 10 ^ n + 1 / 2) : ℚ) / 10 ^ n

/-- One per-passenger state dictionary of `FareCalculator.passengers`. -/
structure Passenger where
  onboard : Bool
  fare : ℚ
  start_location : Option Location
  last_location : Option Location
  start_time : Option ℚ
  total_distance : ℚ
  ride_id : Option String
  waiting_time : ℚ
deriving DecidableEq, Repr

/-- The zero state each passenger slot is created with in
`FareCalculator.__init__` (and returned to after alighting). -/
def initPassenger : Passenger :=
  { onboard := false, fare := 0, start_location := none, last_location := none
  , start_time := none, total_distance := 0, ride_id := none, waiting_time := 0 }

/-- The data one accumulation tick of `_calculation_loop` feeds to
`_update_passenger_fare`: current GPS location, current speed (km/h) and
the elapsed `time_delta` (seconds). -/
structure Tick where
  location : Location
  speed_kmh : ℚ
  time_delta : ℚ
deriving DecidableEq, Repr

/-- The `minimum_speed_threshold = 2.0` km/h from `FareCalculator.__init__`. -/
def minimum_speed_threshold : ℚ := 2

/-- The `waiting_charge_per_minute = 2.0` hardcoded in `_update_passenger_fare`. -/
def waiting_charge_per_minute : ℚ := 2

/-- The `0.005` km (5 m) movement noise floor of `_update_passenger_fare`. -/
def noise_floor : ℚ := 5 / 1000

/-- Method `FareCalculator._update_passenger_fare`, for a distance function `d`
and fare rate `rate` (km rate `self.fare_rate_per_km`).  If the slot has
no `last_location` it only records one; otherwise it adds the distance
charge when movement exceeds the 5 m noise floor (also advancing
`last_location`), and independently adds the waiting charge when the
current speed is below the waiting threshold. -/
def update_passenger_fare (d : Location → Location → ℚ) (rate : ℚ)
    (p : Passenger) (t : Tick) : Passenger :=
  match p.last_location with
  | none => { p with last_location := some t.location }
  | some l =>
    let moved := d l t.location
    let p1 :=
      if moved > noise_floor then
        { p with fare := p.fare + moved * rate
               , total_distance := p.total_distance + moved
               , last_location := some t.location }
      else p
    if t.speed_kmh < minimum_speed_threshold then
      { p1 with fare := p1.fare + t.time_delta / 60 * waiting_charge_per_minute
              , waiting_time := p1.waiting_time + t.time_delta / 60 }
    else p1

/-- One iteration of `_calculation_loop` for one slot: the loop only calls
`_update_passenger_fare` when the slot is onboard. -/
def passengerTick (d : Location → Location → ℚ) (rate : ℚ)
    (p : Passenger) (t : Tick) : Passenger :=
  if p.onboard then update_passenger_fare d rate p t else p

/-- Folding a sequence of GPS ticks through the calculation loop. -/
def runTicks (d : Location → Location → ℚ) (rate : ℚ)
    (p : Passenger) (ts : List Tick) : Passenger :=
  ts.foldl (passengerTick d rate) p

/-- The amount `_update_passenger_fare` adds to `fare` in one tick:
distance charge plus waiting charge, each under its own guard. -/
def tickCharge (d : Location → Location → ℚ) (rate : ℚ)
    (p : Passenger) (t : Tick) : ℚ :=
  match p.last_location with
  | none => 0
  | some l =>
    (if d l t.location > noise_floor then d l t.location * rate else 0) +
    (if t.speed_kmh < minimum_speed_threshold
      then t.time_delta / 60 * waiting_charge_per_minute else 0)

/-- Sum of the per-tick charges along a run of the calculation loop
(zero charge on ticks where the slot is offboard, as the loop skips it). -/
def sumCharges (d : Location → Location → ℚ) (rate : ℚ)
    (p : Passenger) : List Tick → ℚ
  | [] => 0
  | t :: ts =>
      (if p.onboard then tickCharge d rate p t else 0) +
      sumCharges d rate (passengerTick d rate p t) ts

/-- The ride id string `f"RIDE-{passenger_id+1}-{int(time.time())}"`. -/
def mkRideId (pid unix : ℕ) : String :=
  "RIDE-" ++ toString (pid + 1) ++ "-" ++ toString unix

/-- The completed-ride dictionary built in
`FareCalculator.handle_passenger_change` at alighting. -/
structure RideData where
  ride_id : Option String
  passenger_id : ℕ
  start_time : Option ℚ
  end_time : ℚ
  duration_minutes : ℚ
  total_distance_km : ℚ
  straight_line_distance_km : ℚ
  fare_amount : ℚ
  fare_rate_per_km : ℚ
  waiting_time_minutes : ℚ
  start_location : Option Location
  end_location : Option Location
  average_speed : ℚ
deriving DecidableEq, Repr

/-- Method `FareCalculator._calculate_distance` applied to optional locations:
returns `0.0` when either is absent, else delegates to the distance
function. -/
def calcDistOpt (d : Location → Location → ℚ) :
    Option Location → Option Location → ℚ
  | some a, some b => d a b
  | _, _ => 0

/-- Elapsed trip duration in minutes, `(end_time - start_time).total_seconds() / 60`
(zero when no start time is recorded). -/
def legDuration (startTime : Option ℚ) (now : ℚ) : ℚ :=
  match startTime with
  | some s => (now - s) / 60
  | none => 0

/-- Method `FareCalculator.handle_passenger_change` for one slot: boarding when
the event says onboard and the slot is offboard, alighting (returning the
emitted ride record) when the event says offboard and the slot is onboard,
a no-op otherwise.  `now` is the current timestamp in seconds, `unix` the
integer timestamp used in the ride id. -/
def handle_passenger_change (d : Location → Location → ℚ) (rate : ℚ)
    (p : Passenger) (pid : ℕ) (onboard : Bool) (loc : Option Location)
    (now : ℚ) (unix : ℕ) : Passenger × Option RideData :=
  if onboard && !p.onboard then
    ({ onboard := true, fare := 0, start_location := loc, last_location := loc
     , start_time := some now, total_distance := 0, waiting_time := 0
     , ride_id := some (mkRideId pid unix) }, none)
  else if !onboard && p.onboard then
    let duration := legDuration p.start_time now
    let final_distance := calcDistOpt d p.start_location loc
    let rd : RideData :=
      { ride_id := p.ride_id
      , passenger_id := pid + 1
      , start_time := p.start_time
      , end_time := now
      , duration_minutes := roundTo 1 duration
      , total_distance_km := roundTo 3 p.total_distance
      , straight_line_distance_km := roundTo 3 final_distance
      , fare_amount := roundTo 2 p.fare
      , fare_rate_per_km := rate
      , waiting_time_minutes := roundTo 1 p.waiting_time
      , start_location := p.start_location
      , end_location := loc
      , average_speed :=
          roundTo 1 (if duration > 0 then p.total_distance / (duration / 60) else 0) }
    (initPassenger, some rd)
  else
    (p, none)

/-! ## Private mode (`start_private_mode` / `stop_private_mode`) -/

/-- The private-trip fields of `FareCalculator`. -/
structure PrivateState where
  active : Bool
  fare : ℚ
  start_location : Option Location
  last_location : Option Location
  start_time : Option ℚ
  distance : ℚ
  waiting_time : ℚ
deriving DecidableEq, Repr

/-- The private-trip fields as set in `FareCalculator.__init__`. -/
def initPrivate : PrivateState :=
  { active := false, fare := 0, start_location := none, last_location := none
  , start_time := none, distance := 0, waiting_time := 0 }

/-- The trip-tracking fields of `GPSManager` touched by `reset_trip`. -/
structure GpsTrip where
  total_distance_traveled : ℚ
  trip_start_time : Option ℚ
  previous_location : Option Location
deriving DecidableEq, Repr

/-- Method `GPSManager.reset_trip`: zero the accumulator, restamp the trip start,
forget the previous location. -/
def reset_trip (now : ℚ) : GpsTrip :=
  { total_distance_traveled := 0, trip_start_time := some now
  , previous_location := none }

/-- Method `FareCalculator.start_private_mode`: boarding semantics on the private
leg plus the GPS trip-counter reset. -/
def start_private_mode (_gps : GpsTrip) (loc : Option Location) (now : ℚ) :
    PrivateState × GpsTrip :=
  (({ active := true, fare := 0, start_location := loc, last_location := loc
    , start_time := some now, distance := 0, waiting_time := 0 } : PrivateState),
   reset_trip now)

/-- The completed-ride dictionary built in `stop_private_mode`. -/
structure PrivateRideData where
  ride_id : String
  start_time : Option ℚ
  end_time : ℚ
  duration_minutes : ℚ
  calculated_distance_km : ℚ
  gps_total_distance_km : ℚ
  straight_line_distance_km : ℚ
  fare_amount : ℚ
  fare_rate_per_km : ℚ
  waiting_time_minutes : ℚ
  start_location : Option Location
  end_location : Option Location
  average_speed : ℚ
  max_speed : ℚ
deriving DecidableEq, Repr

/-- Method `FareCalculator.stop_private_mode`: when active, clear the active flag
and return the ride record (reporting the engine's filtered distance, the
GPS engine's total distance, and `round(max(0, gps.get_speed()), 1)` under
the `max_speed` key); when inactive, a guarded no-op returning `None`. -/
def stop_private_mode (d : Location → Location → ℚ) (rate : ℚ)
    (st : PrivateState) (loc : Option Location) (gps_total_distance : ℚ)
    (current_speed : ℚ) (now : ℚ) (unix : ℕ) :
    PrivateState × Option PrivateRideData :=
  if st.active then
    let duration := legDuration st.start_time now
    let straight := calcDistOpt d st.start_location loc
    let rd : PrivateRideData :=
      { ride_id := "PRIVATE-" ++ toString unix
      , start_time := st.start_time
      , end_time := now
      , duration_minutes := roundTo 1 duration
      , calculated_distance_km := roundTo 3 st.distance
      , gps_total_distance_km := roundTo 3 gps_total_distance
      , straight_line_distance_km := roundTo 3 straight
      , fare_amount := roundTo 2 st.fare
      , fare_rate_per_km := rate
      , waiting_time_minutes := roundTo 1 st.waiting_time
      , start_location := st.start_location
      , end_location := loc
      , average_speed :=
          roundTo 1 (if duration > 0 then gps_total_distance / (duration / 60) else 0)
      , max_speed := roundTo 1 (max 0 current_speed) }
    ({ st with active := false }, some rd)
  else
    (st, none)

/-- Modelled from the spec: "observed maximum speed over the trip" — the
maximum of all speed samples observed while the private trip was active
(the code keeps no such record; `GPSManager` stores only the current
speed, so this definition follows the spec's words for comparison). -/
def specMaxObservedSpeed (speeds : List ℚ) : ℚ :=
  speeds.foldl max 0

/-! ## Rotary mode switch (`GPIOManager._monitor_mode_switch`) -/

/-- The four positions of the rotary switch. -/
inductive OperatingMode where
  | ForHire
  | Private
  | Sharing
  | Waiting
deriving DecidableEq, Repr

/-- The asserted (= pin LOW) state of the four mode-selector lines, in the
order the `MODES` dict iterates: private, sharing, waiting, for hire. -/
structure ModeLines where
  privateLine : Bool
  sharingLine : Bool
  waitingLine : Bool
  forHireLine : Bool
deriving DecidableEq, Repr

/-- One poll of `_monitor_mode_switch`: scan the mode pins in `MODES`
iteration order, take the first one reading LOW, defaulting to For Hire
when none is LOW. -/
def resolveMode (m : ModeLines) : OperatingMode :=
  if m.privateLine then .Private
  else if m.sharingLine then .Sharing
  else if m.waitingLine then .Waiting
  else if m.forHireLine then .ForHire
  else .ForHire

/-- Modelled from the spec: "the first asserted line in the fixed priority
order (Private, Sharing, Waiting, For Hire) wins; when no line is asserted
the resolved mode is For Hire". -/
def specPriorityMode (m : ModeLines) : OperatingMode :=
  match List.find? (fun p => p.1)
      [(m.privateLine, OperatingMode.Private), (m.sharingLine, .Sharing),
       (m.waitingLine, .Waiting), (m.forHireLine, .ForHire)] with
  | some p => p.2
  | none => .ForHire

/-! ## SOS state machine (`SOSSystem`, with the GPIO alarm pattern) -/

/-- The mutable state of `SOSSystem`: the active flag, the
countdown-running flag, and the seconds remaining in the countdown. -/
structure SosState where
  sos_active : Bool
  countdown_active : Bool
  remaining : ℕ
deriving DecidableEq, Repr

/-- State as of `SOSSystem.__init__`: Normal, no countdown running. -/
def sosInit : SosState :=
  { sos_active := false, countdown_active := false, remaining := 0 }

/-- The discrete events driving `SOSSystem`: a button press edge, a button
release edge, and one one-second step of `_countdown_loop`. -/
inductive SosEvent where
  | press
  | release
  | tick
deriving DecidableEq, Repr

/-- The notifications `SOSSystem` emits: a countdown status (seconds
shown), the early-release cancellation status, the activation record, and
the deactivation event. -/
inductive SosOut where
  | countdown (n : ℕ)
  | cancelled
  | activated
  | deactivated
deriving DecidableEq, Repr

/-- Method `SOSSystem.deactivate_sos`: guarded by `sos_active`; a no-op from
Normal, otherwise clears the flag and emits the deactivation. -/
def deactivate_sos (s : SosState) : SosState × List SosOut :=
  if s.sos_active then
    ({ s with sos_active := false }, [SosOut.deactivated])
  else
    (s, [])

/-- One event step of the SOS machine: `handle_sos_button_press` starts
the countdown thread when neither counting down nor active;
`handle_sos_button_release` cancels a running countdown (emitting the
cancellation status) or deactivates an active SOS; a `tick` is one
iteration of `_countdown_loop` — emit the current second, decrement, and
activate when the countdown completes while still armed. -/
def sosStep (s : SosState) : SosEvent → SosState × List SosOut
  | .press =>
      if !s.countdown_active && !s.sos_active then
        ({ s with countdown_active := true, remaining := 5 }, [])
      else (s, [])
  | .release =>
      if s.countdown_active then
        ({ s with countdown_active := false }, [SosOut.cancelled])
      else if s.sos_active then
        deactivate_sos s
      else (s, [])
  | .tick =>
      if s.countdown_active then
        match s.remaining with
        | 0 => (s, [])
        | n + 1 =>
            if n = 0 then
              ({ s with sos_active := true, countdown_active := false
                      , remaining := 0 }, [SosOut.countdown 1, SosOut.activated])
            else
              ({ s with remaining := n }, [SosOut.countdown (n + 1)])
      else (s, [])

/-- Run a list of SOS events, accumulating emitted notifications. -/
def sosRun (s : SosState) : List SosEvent → SosState × List SosOut
  | [] => (s, [])
  | e :: es =>
      let r := sosStep s e
      let r2 := sosRun r.1 es
      (r2.1, r.2 ++ r2.2)

/-- One check of the `while self.sos_active` alarm loop in
`GPIOManager._sos_pattern`: when active it plays one ... --- ... cycle
(beep durations in seconds), when the flag is down it plays nothing and
the loop exits. -/
def sos_pattern_cycle (sos_active : Bool) : List ℚ :=
  if sos_active then
    [2/10, 2/10, 2/10, 6/10, 6/10, 6/10, 2/10, 2/10, 2/10]
  else []

/-- The 50 ms `time.sleep(0.05)` between SOS-button checks in
`GPIOManager._monitor_sos_button`, in seconds. -/
def sos_button_poll_period : ℚ := 5 / 100

/-- The 100 ms busy-poll of the SOS hold-duration loop in
`_monitor_sos_button`, in seconds. -/
def sos_hold_poll_period : ℚ := 1 / 10

/-- The 200 ms polling period of `_monitor_mode_switch`, the longest of
the sampler loops, in seconds. -/
def mode_poll_period : ℚ := 2 / 10

/-- One full iteration of the `_sos_pattern` loop body as a timed trace
of buzzer levels `(level, seconds)`, transcribed write-for-write and
sleep-for-sleep from `GPIOManager._sos_pattern`: three short beeps, a
pause, three long beeps, a pause, three short beeps, a 1 s pause.  The
body reads `sos_active` nowhere: the flag is consulted only by the
`while` condition before a cycle starts, so a cycle in progress always
plays to its end. -/
def sos_pattern_body : List (Bool × ℚ) :=
  [ (true, 2/10), (false, 2/10), (true, 2/10), (false, 2/10)
  , (true, 2/10), (false, 2/10)
  , (false, 2/10)
  , (true, 6/10), (false, 2/10), (true, 6/10), (false, 2/10)
  , (true, 6/10), (false, 2/10)
  , (false, 2/10)
  , (true, 2/10), (false, 2/10), (true, 2/10), (false, 2/10)
  , (true, 2/10), (false, 2/10)
  , (false, 1) ]

/-- Buzzer level `t` seconds into a timed trace (LOW once the trace is
over). -/
def buzzerLevelAt : List (Bool × ℚ) → ℚ → Bool
  | [], _ => false
  | (b, dur) :: rest, t => if t < dur then b else buzzerLevelAt rest (t - dur)

/-! ## Haversine distance (`GPSManager.calculate_distance`), over ℝ -/

/-- The haversine body of `GPSManager.calculate_distance`: degrees to
radians, then `2 * R * asin(sqrt(a))` with Earth radius `R = 6371.0` km. -/
noncomputable def haversineRaw (lat1 lon1 lat2 lon2 : ℝ) : ℝ :=
  let rlat1 := lat1 * Real.pi / 180
  let rlon1 := lon1 * Real.pi / 180
  let rlat2 := lat2 * Real.pi / 180
  let rlon2 := lon2 * Real.pi / 180
  let dlat := rlat2 - rlat1
  let dlon := rlon2 - rlon1
  let a := Real.sin (dlat / 2) ^ 2 +
    Real.cos rlat1 * Real.cos rlat2 * Real.sin (dlon / 2) ^ 2
  2 * 6371 * Real.arcsin (Real.sqrt a)

/-- Method `GPSManager.calculate_distance`: the guard
`if not all([lat1, lon1, lat2, lon2]): return 0.0` makes any coordinate
equal to `0.0` (a falsy float) short-circuit to distance zero; otherwise
the haversine formula is evaluated. -/
noncomputable def calculate_distance (lat1 lon1 lat2 lon2 : ℝ) : ℝ :=
  if lat1 = 0 ∨ lon1 = 0 ∨ lat2 = 0 ∨ lon2 = 0 then 0
  else haversineRaw lat1 lon1 lat2 lon2

/-! ## Engine lemmas -/

/-- The noise floor is positive. -/
lemma noise_floor_pos : 0 < noise_floor := by norm_num [noise_floor]

/-- One fare tick never touches the `onboard` flag. -/
lemma update_onboard (d : Location → Location → ℚ) (rate : ℚ)
    (p : Passenger) (t : Tick) :
    (update_passenger_fare d rate p t).onboard = p.onboard := by
  unfold update_passenger_fare
  cases p.last_location <;> dsimp only <;> split <;> split <;> rfl

/-- The calculation-loop step never touches the `onboard` flag. -/
lemma passengerTick_onboard (d : Location → Location → ℚ) (rate : ℚ)
    (p : Passenger) (t : Tick) :
    (passengerTick d rate p t).onboard = p.onboard := by
  unfold passengerTick
  split
  · exact update_onboard d rate p t
  · rfl

/-- A run of the calculation loop never touches the `onboard` flag. -/
lemma runTicks_onboard (d : Location → Location → ℚ) (rate : ℚ)
    (ts : List Tick) (p : Passenger) :
    (runTicks d rate p ts).onboard = p.onboard := by
  induction ts generalizing p with
  | nil => rfl
  | cons t ts ih =>
      simpa [runTicks, List.foldl_cons, passengerTick_onboard] using
        (ih (passengerTick d rate p t)).trans (passengerTick_onboard d rate p t)

/-- One fare tick never touches the `ride_id`. -/
lemma update_ride_id (d : Location → Location → ℚ) (rate : ℚ)
    (p : Passenger) (t : Tick) :
    (update_passenger_fare d rate p t).ride_id = p.ride_id := by
  unfold update_passenger_fare
  cases p.last_location <;> dsimp only <;> split <;> split <;> rfl

/-- The calculation-loop step never touches the `ride_id`. -/
lemma passengerTick_ride_id (d : Location → Location → ℚ) (rate : ℚ)
    (p : Passenger) (t : Tick) :
    (passengerTick d rate p t).ride_id = p.ride_id := by
  unfold passengerTick
  split
  · exact update_ride_id d rate p t
  · rfl

/-- A run of the calculation loop never touches the `ride_id`. -/
lemma runTicks_ride_id (d : Location → Location → ℚ) (rate : ℚ)
    (ts : List Tick) (p : Passenger) :
    (runTicks d rate p ts).ride_id = p.ride_id := by
  induction ts generalizing p with
  | nil => rfl
  | cons t ts ih =>
      exact (ih (passengerTick d rate p t)).trans
        (passengerTick_ride_id d rate p t)

/-- One fare tick adds exactly `tickCharge` to the fare. -/
lemma update_fare_charge (d : Location → Location → ℚ) (rate : ℚ)
    (p : Passenger) (t : Tick) :
    (update_passenger_fare d rate p t).fare = p.fare + tickCharge d rate p t := by
  unfold update_passenger_fare tickCharge
  cases p.last_location <;> dsimp only
  · simp
  · split <;> split <;> simp <;> ring

/-- A loop step adds `tickCharge` when onboard and nothing otherwise. -/
lemma passengerTick_fare (d : Location → Location → ℚ) (rate : ℚ)
    (p : Passenger) (t : Tick) :
    (passengerTick d rate p t).fare =
      p.fare + (if p.onboard then tickCharge d rate p t else 0) := by
  unfold passengerTick
  split <;> simp_all [update_fare_charge]

/-- Over a whole run, the fare is the initial fare plus the sum of the
per-tick charges. -/
lemma runTicks_fare (d : Location → Location → ℚ) (rate : ℚ)
    (ts : List Tick) (p : Passenger) :
    (runTicks d rate p ts).fare = p.fare + sumCharges d rate p ts := by
  induction ts generalizing p with
  | nil => simp [runTicks, sumCharges]
  | cons t ts ih =>
      have h1 : runTicks d rate p (t :: ts) =
          runTicks d rate (passengerTick d rate p t) ts := rfl
      have h2 : sumCharges d rate p (t :: ts) =
          (if p.onboard then tickCharge d rate p t else 0) +
          sumCharges d rate (passengerTick d rate p t) ts := rfl
      rw [h1, ih, passengerTick_fare, h2]
      ring

/-- One fare tick never decreases the accumulated distance. -/
lemma update_dist_mono (d : Location → Location → ℚ) (rate : ℚ)
    (p : Passenger) (t : Tick) :
    p.total_distance ≤ (update_passenger_fare d rate p t).total_distance := by
  unfold update_passenger_fare
  cases p.last_location with
  | none => simp
  | some l =>
      dsimp only
      split <;> split <;> simp
      all_goals linarith [noise_floor_pos]

/-- A loop step never decreases the accumulated distance. -/
lemma passengerTick_dist_mono (d : Location → Location → ℚ) (rate : ℚ)
    (p : Passenger) (t : Tick) :
    p.total_distance ≤ (passengerTick d rate p t).total_distance := by
  unfold passengerTick
  split
  · exact update_dist_mono d rate p t
  · exact le_refl _

/-- Across any run of the loop the accumulated distance is non-decreasing. -/
lemma runTicks_dist_mono (d : Location → Location → ℚ) (rate : ℚ)
    (ts : List Tick) (p : Passenger) :
    p.total_distance ≤ (runTicks d rate p ts).total_distance := by
  induction ts generalizing p with
  | nil => exact le_refl _
  | cons t ts ih =>
      exact le_trans (passengerTick_dist_mono d rate p t)
        (ih (passengerTick d rate p t))

/-- With a known last location, a sub-threshold tick changes neither the
accumulated distance nor the last location. -/
lemma update_subthreshold (d : Location → Location → ℚ) (rate : ℚ)
    (p : Passenger) (t : Tick) (l : Location)
    (hl : p.last_location = some l) (hm : ¬ d l t.location > noise_floor) :
    (update_passenger_fare d rate p t).total_distance = p.total_distance ∧
    (update_passenger_fare d rate p t).last_location = p.last_location := by
  unfold update_passenger_fare
  rw [hl]
  dsimp only
  rw [if_neg hm]
  split <;> simp [hl]

/-- With a known last location, the accumulated distance strictly grows
on a tick exactly when the movement exceeds the noise floor. -/
lemma update_dist_strict_iff (d : Location → Location → ℚ) (rate : ℚ)
    (p : Passenger) (t : Tick) (l : Location)
    (hl : p.last_location = some l) :
    (update_passenger_fare d rate p t).total_distance > p.total_distance ↔
      d l t.location > noise_floor := by
  constructor
  · intro h
    by_contra hm
    have heq := (update_subthreshold d rate p t l hl hm).1
    rw [heq] at h
    exact lt_irrefl _ h
  · intro hm
    unfold update_passenger_fare
    rw [hl]
    dsimp only
    rw [if_pos hm]
    have hpos : 0 < d l t.location := lt_trans noise_floor_pos hm
    split <;> simp
    all_goals linarith

/-! ## Concrete example inputs used by witness theorems -/

/-- A concrete location (roughly Mumbai, as the simulated GPS uses). -/
def exLoc : Location := { lat := 19, lon := 72 }

/-- A second concrete location. -/
def exLoc2 : Location := { lat := 20, lon := 73 }

/-- A distance function that always reports 1 km of movement. -/
def dOne : Location → Location → ℚ := fun _ _ => 1

/-- A distance function that always reports zero movement. -/
def dZero : Location → Location → ℚ := fun _ _ => 0

/-- A concrete onboard passenger slot with a recorded last location. -/
def exOnboard : Passenger :=
  { onboard := true, fare := 0, start_location := some exLoc
  , last_location := some exLoc, start_time := some 0, total_distance := 0
  , ride_id := some (mkRideId 0 100), waiting_time := 0 }

/-- A slow-moving GPS tick (1 km/h, 2 s since the last update). -/
def exTickSlow : Tick := { location := exLoc2, speed_kmh := 1, time_delta := 2 }

/-- A concrete SOS state with the alarm active. -/
def exSosActive : SosState :=
  { sos_active := true, countdown_active := false, remaining := 0 }

/-! ## Claim theorems -/

/-- C2: for every sequence of GPS samples applied to an onboard passenger
slot the accumulated distance is non-decreasing across ticks; with a
recorded last location, a tick strictly increases it exactly when the
distance between the last recorded location and the new sample exceeds
the 5 m noise floor, and a sub-threshold movement leaves both the
accumulated distance and the last location unchanged. -/
theorem C2_accumulated_distance_monotone
    (d : Location → Location → ℚ) (rate : ℚ) (p : Passenger) (ts : List Tick)
    (t : Tick) (l : Location) (hon : p.onboard = true)
    (hl : p.last_location = some l) :
    p.total_distance ≤ (runTicks d rate p ts).total_distance ∧
    ((passengerTick d rate p t).total_distance > p.total_distance ↔
      d l t.location > noise_floor) ∧
    (¬ d l t.location > noise_floor →
      (passengerTick d rate p t).total_distance = p.total_distance ∧
      (passengerTick d rate p t).last_location = p.last_location) := by
  have hpt : passengerTick d rate p t = update_passenger_fare d rate p t := by
    unfold passengerTick
    rw [hon]
    simp
  refine ⟨runTicks_dist_mono d rate ts p, ?_, ?_⟩
  · rw [hpt]
    exact update_dist_strict_iff d rate p t l hl
  · intro hm
    rw [hpt]
    exact update_subthreshold d rate p t l hl hm

/-- Witness for C2 at a concrete onboard slot, a constant-1 km distance
function and a concrete tick. -/
theorem C2_accumulated_distance_monotone_witness :
    exOnboard.onboard = true ∧ exOnboard.last_location = some exLoc ∧
    (exOnboard.total_distance ≤
        (runTicks dOne 12 exOnboard [exTickSlow]).total_distance ∧
     ((passengerTick dOne 12 exOnboard exTickSlow).total_distance >
        exOnboard.total_distance ↔ dOne exLoc exTickSlow.location > noise_floor) ∧
     (¬ dOne exLoc exTickSlow.location > noise_floor →
       (passengerTick dOne 12 exOnboard exTickSlow).total_distance =
          exOnboard.total_distance ∧
       (passengerTick dOne 12 exOnboard exTickSlow).last_location =
          exOnboard.last_location)) :=
  ⟨rfl, rfl,
    C2_accumulated_distance_monotone dOne 12 exOnboard [exTickSlow] exTickSlow
      exLoc rfl rfl⟩

/-- C3: in a single accumulation tick for an onboard slot, the distance
charge and the waiting charge are independent: a sample slower than the
2 km/h waiting threshold that still moves beyond the 5 m noise floor adds
both `moved * rate` and `(tick_seconds/60) * waiting_rate_per_minute` to
the fare in the same tick, accruing distance and waiting time together. -/
theorem C3_distance_and_waiting_charges_independent
    (d : Location → Location → ℚ) (rate : ℚ) (p : Passenger) (t : Tick)
    (l : Location) (hon : p.onboard = true) (hl : p.last_location = some l)
    (hm : d l t.location > noise_floor)
    (hs : t.speed_kmh < minimum_speed_threshold) :
    (passengerTick d rate p t).fare =
      p.fare + d l t.location * rate +
        t.time_delta / 60 * waiting_charge_per_minute ∧
    (passengerTick d rate p t).total_distance =
      p.total_distance + d l t.location ∧
    (passengerTick d rate p t).waiting_time =
      p.waiting_time + t.time_delta / 60 := by
  have hpt : passengerTick d rate p t = update_passenger_fare d rate p t := by
    unfold passengerTick
    rw [hon]
    simp
  rw [hpt]
  unfold update_passenger_fare
  rw [hl]
  simp only [hm, hs, if_true, if_pos]
  refine ⟨?_, ?_, ?_⟩ <;> simp

/-- Witness for C3: a slow (1 km/h) tick that still moves 1 km. -/
theorem C3_distance_and_waiting_charges_independent_witness :
    exOnboard.onboard = true ∧ exOnboard.last_location = some exLoc ∧
    dOne exLoc exTickSlow.location > noise_floor ∧
    exTickSlow.speed_kmh < minimum_speed_threshold ∧
    ((passengerTick dOne 12 exOnboard exTickSlow).fare =
      exOnboard.fare + dOne exLoc exTickSlow.location * 12 +
        exTickSlow.time_delta / 60 * waiting_charge_per_minute ∧
     (passengerTick dOne 12 exOnboard exTickSlow).total_distance =
      exOnboard.total_distance + dOne exLoc exTickSlow.location ∧
     (passengerTick dOne 12 exOnboard exTickSlow).waiting_time =
      exOnboard.waiting_time + exTickSlow.time_delta / 60) :=
  ⟨rfl, rfl, by norm_num [dOne, noise_floor], by norm_num [exTickSlow, minimum_speed_threshold],
    C3_distance_and_waiting_charges_independent dOne 12 exOnboard exTickSlow
      exLoc rfl rfl (by norm_num [dOne, noise_floor])
      (by norm_num [exTickSlow, minimum_speed_threshold])⟩

/-- C5: the resolved operating mode is a deterministic function of the
four selector-line states; with no line asserted it is For Hire, and in
general the first asserted line in the fixed priority order
(Private, Sharing, Waiting, For Hire) wins — the code's scan order
coincides with the spec's priority resolution on every input. -/
theorem C5_mode_resolution_deterministic :
    resolveMode { privateLine := false, sharingLine := false
                , waitingLine := false, forHireLine := false } =
      OperatingMode.ForHire ∧
    ∀ m : ModeLines, resolveMode m = specPriorityMode m := by
  constructor
  · rfl
  · rintro ⟨a, b, c, e⟩
    cases a <;> cases b <;> cases c <;> cases e <;> rfl

/-- C8: offboard events for an already-offboard slot, and stopping private
mode when it is not active, are no-ops guarded by the onboard/active flag:
the state is unchanged and no ride-completed record is produced. -/
theorem C8_offboard_and_inactive_are_noops
    (d : Location → Location → ℚ) (rate : ℚ) (p : Passenger) (pid : ℕ)
    (loc : Option Location) (now : ℚ) (unix : ℕ) (st : PrivateState)
    (loc2 : Option Location) (gt spd now2 : ℚ) (unix2 : ℕ)
    (hp : p.onboard = false) (hs : st.active = false) :
    handle_passenger_change d rate p pid false loc now unix = (p, none) ∧
    stop_private_mode d rate st loc2 gt spd now2 unix2 = (st, none) := by
  constructor
  · unfold handle_passenger_change
    rw [hp]
    simp
  · unfold stop_private_mode
    rw [hs]
    simp

/-- Witness for C8: the freshly initialised passenger slot and private
state. -/
theorem C8_offboard_and_inactive_are_noops_witness :
    initPassenger.onboard = false ∧ initPrivate.active = false ∧
    (handle_passenger_change dOne 12 initPassenger 0 false (some exLoc) 5 5 =
        (initPassenger, none) ∧
     stop_private_mode dOne 12 initPrivate (some exLoc) 3 10 5 5 =
        (initPrivate, none)) :=
  ⟨rfl, rfl,
    C8_offboard_and_inactive_are_noops dOne 12 initPassenger 0 (some exLoc)
      5 5 initPrivate (some exLoc) 3 10 5 5 rfl rfl⟩

/-- C9: SOS deactivation is idempotent — from a non-active state it is a
no-op changing nothing and emitting nothing, and a second deactivation
right after a first one leaves the same state as the first (and emits
nothing). -/
theorem C9_deactivate_sos_idempotent (s : SosState)
    (h : s.sos_active = false) :
    deactivate_sos s = (s, []) ∧
    ∀ s2 : SosState,
      (deactivate_sos (deactivate_sos s2).1).1 = (deactivate_sos s2).1 ∧
      (deactivate_sos (deactivate_sos s2).1).2 = [] := by
  constructor
  · unfold deactivate_sos
    rw [h]
    simp
  · intro s2
    unfold deactivate_sos
    by_cases h2 : s2.sos_active <;> simp [h2]

/-- Witness for C9: the Normal initial state, and double deactivation from
a concrete Active state. -/
theorem C9_deactivate_sos_idempotent_witness :
    sosInit.sos_active = false ∧
    deactivate_sos sosInit = (sosInit, []) ∧
    (deactivate_sos (deactivate_sos exSosActive).1).1 =
      (deactivate_sos exSosActive).1 ∧
    (deactivate_sos (deactivate_sos exSosActive).1).2 = [] :=
  ⟨rfl, (C9_deactivate_sos_idempotent sosInit rfl).1,
    ((C9_deactivate_sos_idempotent sosInit rfl).2 exSosActive).1,
    ((C9_deactivate_sos_idempotent sosInit rfl).2 exSosActive).2⟩

/-- Alighting an onboard slot selects the alighting branch and produces
exactly the record built from the slot's accumulated state, then resets
the slot to its zero state. -/
lemma alight_eq (d : Location → Location → ℚ) (rate : ℚ) (q : Passenger)
    (pid : ℕ) (loc2 : Option Location) (now2 : ℚ) (unix2 : ℕ)
    (hq : q.onboard = true) :
    handle_passenger_change d rate q pid false loc2 now2 unix2 =
      (initPassenger, some
        { ride_id := q.ride_id
        , passenger_id := pid + 1
        , start_time := q.start_time
        , end_time := now2
        , duration_minutes := roundTo 1 (legDuration q.start_time now2)
        , total_distance_km := roundTo 3 q.total_distance
        , straight_line_distance_km :=
            roundTo 3 (calcDistOpt d q.start_location loc2)
        , fare_amount := roundTo 2 q.fare
        , fare_rate_per_km := rate
        , waiting_time_minutes := roundTo 1 q.waiting_time
        , start_location := q.start_location
        , end_location := loc2
        , average_speed := roundTo 1
            (if legDuration q.start_time now2 > 0
              then q.total_distance / (legDuration q.start_time now2 / 60)
              else 0) }) := by
  unfold handle_passenger_change
  rw [hq]
  simp

/-- C1: for every passenger slot, boarding zeroes fare, distance and
waiting time, captures the current location as start and last location,
and assigns a fresh non-null ride id; after any sequence of accumulation
ticks, the alighting transition emits exactly one ride-completed record
whose `fare_amount` equals the sum of the per-tick charges rounded to two
decimal places, after which the slot is back in its zero state (so a
further offboard event emits no second record). -/
theorem C1_boarding_and_alighting
    (d : Location → Location → ℚ) (rate : ℚ) (p : Passenger)
    (pid unix unix2 unix3 : ℕ) (loc loc2 loc3 : Option Location)
    (now now2 now3 : ℚ) (ts : List Tick) (hoff : p.onboard = false) :
    ∃ b : Passenger,
      handle_passenger_change d rate p pid true loc now unix = (b, none) ∧
      b.onboard = true ∧ b.fare = 0 ∧ b.total_distance = 0 ∧
      b.waiting_time = 0 ∧ b.start_location = loc ∧ b.last_location = loc ∧
      b.start_time = some now ∧ b.ride_id = some (mkRideId pid unix) ∧
      b.ride_id ≠ none ∧
      ∃ rd : RideData,
        handle_passenger_change d rate (runTicks d rate b ts) pid false loc2
            now2 unix2 = (initPassenger, some rd) ∧
        rd.fare_amount = roundTo 2 (sumCharges d rate b ts) ∧
        rd.ride_id = some (mkRideId pid unix) ∧
        handle_passenger_change d rate initPassenger pid false loc3 now3
            unix3 = (initPassenger, none) := by
  refine ⟨{ onboard := true, fare := 0, start_location := loc
          , last_location := loc, start_time := some now, total_distance := 0
          , waiting_time := 0, ride_id := some (mkRideId pid unix) },
      ?_, rfl, rfl, rfl, rfl, rfl, rfl, rfl, rfl, by simp, ?_⟩
  · unfold handle_passenger_change
    rw [hoff]
    simp
  · set b : Passenger :=
      { onboard := true, fare := 0, start_location := loc
      , last_location := loc, start_time := some now, total_distance := 0
      , waiting_time := 0, ride_id := some (mkRideId pid unix) } with hbdef
    have hqon : (runTicks d rate b ts).onboard = true := by
      rw [runTicks_onboard]
    have hqfare : (runTicks d rate b ts).fare = sumCharges d rate b ts := by
      rw [runTicks_fare]
      simp [hbdef]
    have hqid : (runTicks d rate b ts).ride_id = some (mkRideId pid unix) := by
      rw [runTicks_ride_id]
    refine ⟨_, alight_eq d rate _ pid loc2 now2 unix2 hqon, ?_, ?_, ?_⟩
    · dsimp only
      rw [hqfare]
    · dsimp only
      rw [hqid]
    · unfold handle_passenger_change
      simp [initPassenger]

/-- Witness for C1: the zero slot boards at a concrete location, receives
one slow tick, and alights. -/
theorem C1_boarding_and_alighting_witness :
    initPassenger.onboard = false ∧
    ∃ b : Passenger,
      handle_passenger_change dOne 12 initPassenger 0 true (some exLoc) 100
          100 = (b, none) ∧
      b.onboard = true ∧ b.fare = 0 ∧ b.total_distance = 0 ∧
      b.waiting_time = 0 ∧ b.start_location = some exLoc ∧
      b.last_location = some exLoc ∧ b.start_time = some 100 ∧
      b.ride_id = some (mkRideId 0 100) ∧ b.ride_id ≠ none ∧
      ∃ rd : RideData,
        handle_passenger_change dOne 12 (runTicks dOne 12 b [exTickSlow]) 0
            false (some exLoc2) 160 160 = (initPassenger, some rd) ∧
        rd.fare_amount = roundTo 2 (sumCharges dOne 12 b [exTickSlow]) ∧
        rd.ride_id = some (mkRideId 0 100) ∧
        handle_passenger_change dOne 12 initPassenger 0 false (some exLoc2)
            170 170 = (initPassenger, none) :=
  ⟨rfl, C1_boarding_and_alighting dOne 12 initPassenger 0 100 160 170
    (some exLoc) (some exLoc2) (some exLoc2) 100 160 170 [exTickSlow] rfl⟩

/-- C4 (counterexample to the claim as stated): releasing the line while
Active clears `sos_active` at once, but the alarm-pattern cycle whose
`while self.sos_active` check passed before the release contains no
further cancellation check — 4.9 s into the cycle the buzzer is driven
HIGH again, and 4.9 s exceeds every sampler polling period (the 50 ms SOS
check, the 100 ms hold poll, the 200 ms mode scan), so the alarm pattern
is not halted within one polling period. -/
theorem C4_alarm_not_halted_within_polling_period :
    (sosStep exSosActive .release).1.sos_active = false ∧
    buzzerLevelAt sos_pattern_body (49 / 10) = true ∧
    (49 : ℚ) / 10 > sos_button_poll_period ∧
    (49 : ℚ) / 10 > sos_hold_poll_period ∧
    (49 : ℚ) / 10 > mode_poll_period := by
  refine ⟨rfl, ?_, ?_, ?_, ?_⟩
  · norm_num [buzzerLevelAt, sos_pattern_body]
  · norm_num [sos_button_poll_period]
  · norm_num [sos_hold_poll_period]
  · norm_num [mode_poll_period]

/-- C4 (amended): pressing the emergency button from Normal and holding
through the five countdown seconds activates SOS; releasing at second 3
of the countdown returns to Normal with a cancellation status and no
activation; releasing while Active deactivates the SOS state immediately
and the alarm pattern halts at the pattern thread's next cycle check —
an already-started cycle plays to completion (the buzzer is still driven
HIGH 4.9 s into it), not within one polling period. -/
theorem C4_sos_hold_cancel_deactivate :
    ((sosRun sosInit [.press, .tick, .tick, .tick, .tick, .tick]).1.sos_active
        = true ∧
     (sosRun sosInit [.press, .tick, .tick, .tick, .tick, .tick]).2 =
       [.countdown 5, .countdown 4, .countdown 3, .countdown 2, .countdown 1,
        .activated]) ∧
    ((sosRun sosInit [.press, .tick, .tick, .release]).1.sos_active = false ∧
     (sosRun sosInit [.press, .tick, .tick, .release]).1.countdown_active
        = false ∧
     (sosRun sosInit [.press, .tick, .tick, .release]).2 =
       [.countdown 5, .countdown 4, .cancelled]) ∧
    ((sosStep exSosActive .release).1.sos_active = false ∧
     (sosStep exSosActive .release).2 = [.deactivated] ∧
     sos_pattern_cycle (sosStep exSosActive .release).1.sos_active = [] ∧
     buzzerLevelAt sos_pattern_body (49 / 10) = true) := by
  refine ⟨⟨rfl, rfl⟩, ⟨rfl, rfl, rfl⟩, rfl, rfl, rfl, ?_⟩
  norm_num [buzzerLevelAt, sos_pattern_body]

/-- C6: the distance function implements the haversine formula with Earth
radius 6371.0 km; it vanishes on equal inputs and is symmetric. -/
theorem C6_distance_zero_self_and_symmetric :
    (∀ la lo : ℝ, calculate_distance la lo la lo = 0) ∧
    (∀ la lo lb lob : ℝ,
      calculate_distance la lo lb lob = calculate_distance lb lob la lo) := by
  have hsin : ∀ x y : ℝ,
      Real.sin ((x - y) / 2) ^ 2 = Real.sin ((y - x) / 2) ^ 2 := by
    intro x y
    rw [show (x - y) / 2 = -((y - x) / 2) by ring, Real.sin_neg]
    ring
  constructor
  · intro la lo
    unfold calculate_distance
    split
    · rfl
    · unfold haversineRaw
      simp
  · intro la lo lb lob
    unfold calculate_distance
    by_cases h1 : la = 0 ∨ lo = 0 ∨ lb = 0 ∨ lob = 0
    · rw [if_pos h1, if_pos (by tauto)]
    · rw [if_neg h1, if_neg (by tauto)]
      unfold haversineRaw
      dsimp only
      rw [hsin (lb * Real.pi / 180) (la * Real.pi / 180),
          hsin (lob * Real.pi / 180) (lo * Real.pi / 180),
          mul_comm (Real.cos (la * Real.pi / 180))
            (Real.cos (lb * Real.pi / 180))]

/-- C7 (code slip): the private ride record's `max_speed` field holds
`round(max(0, current_speed), 1)` — the instantaneous GPS speed at stop
time — not the maximum speed observed over the trip.  On a private trip
whose observed speeds were 50 then 10 km/h (10 km/h current when
stopped), the record reports 10 while the observed maximum is 50. -/
theorem C7_max_speed_reports_current_speed :
    ∃ rd : PrivateRideData,
      (stop_private_mode dOne 12
          (start_private_mode
            { total_distance_traveled := 3, trip_start_time := some 0
            , previous_location := some exLoc } (some exLoc) 0).1
          (some exLoc2) 2 10 600 600).2 = some rd ∧
      rd.max_speed = 10 ∧
      specMaxObservedSpeed [50, 10] = 50 ∧
      rd.max_speed ≠ specMaxObservedSpeed [50, 10] := by
  refine ⟨_, rfl, ?_, ?_, ?_⟩
  · norm_num [roundTo]
  · norm_num [specMaxObservedSpeed]
  · norm_num [roundTo, specMaxObservedSpeed]

/-- C10: any coordinate equal to `0.0` makes `calculate_distance` return
zero (the falsy-float guard treats a genuine equator or prime-meridian
location like an absent input); consequently a tick whose computed
movement is zero adds no distance and no distance fare — only the waiting
charge can still apply. -/
theorem C10_zero_coordinate_no_distance
    (la lo lb lob : ℝ) (h : la = 0 ∨ lo = 0 ∨ lb = 0 ∨ lob = 0)
    (d : Location → Location → ℚ) (rate : ℚ) (p : Passenger) (t : Tick)
    (l : Location) (hl : p.last_location = some l)
    (hd : d l t.location = 0) :
    calculate_distance la lo lb lob = 0 ∧
    (update_passenger_fare d rate p t).total_distance = p.total_distance ∧
    (update_passenger_fare d rate p t).last_location = p.last_location ∧
    (update_passenger_fare d rate p t).fare =
      p.fare + (if t.speed_kmh < minimum_speed_threshold
        then t.time_delta / 60 * waiting_charge_per_minute else 0) := by
  have hm : ¬ d l t.location > noise_floor := by
    rw [hd]
    exact not_lt.mpr (le_of_lt noise_floor_pos)
  refine ⟨?_, (update_subthreshold d rate p t l hl hm).1,
      (update_subthreshold d rate p t l hl hm).2, ?_⟩
  · unfold calculate_distance
    rw [if_pos h]
  · rw [update_fare_charge]
    unfold tickCharge
    rw [hl]
    dsimp only
    rw [if_neg hm, zero_add]

/-- Witness for C10: latitude exactly 0 (a point on the equator), a
zero-reporting distance function and a concrete slow tick. -/
theorem C10_zero_coordinate_no_distance_witness :
    ((0 : ℝ) = 0 ∨ (19 : ℝ) = 0 ∨ (72 : ℝ) = 0 ∨ (5 : ℝ) = 0) ∧
    exOnboard.last_location = some exLoc ∧
    dZero exLoc exTickSlow.location = 0 ∧
    (calculate_distance 0 19 72 5 = 0 ∧
     (update_passenger_fare dZero 12 exOnboard exTickSlow).total_distance =
        exOnboard.total_distance ∧
     (update_passenger_fare dZero 12 exOnboard exTickSlow).last_location =
        exOnboard.last_location ∧
     (update_passenger_fare dZero 12 exOnboard exTickSlow).fare =
        exOnboard.fare + (if exTickSlow.speed_kmh < minimum_speed_threshold
          then exTickSlow.time_delta / 60 * waiting_charge_per_minute
          else 0)) :=
  ⟨Or.inl rfl, rfl, rfl,
    C10_zero_coordinate_no_distance 0 19 72 5 (Or.inl rfl) dZero 12 exOnboard
      exTickSlow exLoc rfl rfl⟩

end RickyMeter
